import Mathlib

/-!
# Verification development for the whisper-voice-trader core pipeline

Shallow embedding of the voice-command interpretation and order-execution
pipeline of the `whisper-voice-trader` repository:

* `utils/validators.py`   — tuple-returning parameter validators
* `core/order_executor.py` — `OrderExecutor` pipeline (validation, position
  sizing, balance check, dispatch, persistence hooks)
* `core/risk_manager.py`   — `RiskManager.check_order_risk`
* `core/command_parser.py` — `CommandParser` / `CommandValidator`
* `core/voice_listener.py` — active-mode loop of the listening state machine

Numeric values (Python floats) are embedded as rational numbers `ℚ`; the
claims verified here are algebraic and all concrete values involved are
exactly representable.  External collaborators (exchange connectivity,
database, paper engine, transcription) are modelled as explicit environment
records of abstract functions, following the spec's collaborator contracts.
-/

namespace VoiceTrader

/-! ## Formatting helpers

Python f-string interpolation of floats appears inside error messages.
`qRepr` mirrors `str(float)` for the short decimal values this code
handles; `formatQ2` mirrors `"%.2f"` formatting (ties at half a cent round
to even in CPython; every value reaching the formatter in the verified
claims is exact, so the tie-breaking mode is immaterial).
-/

/-- Split a character list at every character satisfying `p`, keeping
empty groups (Python `str.split(sep)` shape). -/
def splitChars (p : Char → Bool) (s : List Char) : List (List Char) :=
  s.foldr
    (fun c acc =>
      if p c then [] :: acc
      else
        match acc with
        | [] => [[c]]
        | g :: rest => (c :: g) :: rest)
    [[]]

def qReprNonneg (q : ℚ) : String :=
  -- smallest k with q.den ∣ 10^k gives the exact decimal expansion
  match (List.range 18).find? (fun k => (10 : ℕ) ^ k % q.den = 0) with
  | some 0 => toString q.num ++ ".0"
  | some k =>
    let m := q.num.toNat * ((10 : ℕ) ^ k / q.den)
    let s := (toString m).toList
    let s := if s.length ≤ k then List.replicate (k + 1 - s.length) '0' ++ s else s
    String.mk (s.take (s.length - k) ++ [ '.' ] ++ s.drop (s.length - k))
  | none => toString q.num ++ "/" ++ toString q.den

def qRepr (q : ℚ) : String :=
  if q.num < 0 then "-" ++ qReprNonneg (-q) else qReprNonneg q

def formatQ2 (q : ℚ) : String :=
  -- round(|q| * 100) computed as ⌊(200·|num| + den) / (2·den)⌋
  let n : ℕ := (q.num.natAbs * 200 + q.den) / (2 * q.den)
  let whole := n / 100
  let cents := n % 100
  (if q.num < 0 ∧ n ≠ 0 then "-" else "")
    ++ toString whole ++ "." ++ (if cents < 10 then "0" else "") ++ toString cents

/-! ## `utils/validators.py`

Each validator returns a `(is_valid, error_message)` pair; none of them
raises.  (`validate_quantity`/`validate_price` additionally check the
printed decimal precision of their argument; that check is reproduced via
`qRepr`.)
-/

def validate_leverage (leverage : ℤ) (min_leverage : ℤ := 1) (max_leverage : ℤ := 125) :
    Bool × String :=
  if leverage < min_leverage then
    (false, "Leverage must be at least " ++ toString min_leverage ++ "x")
  else if leverage > max_leverage then
    (false, "Leverage cannot exceed " ++ toString max_leverage ++ "x")
  else (true, "")

def decimalPlacesTooMany (q : ℚ) : Bool :=
  let s := qRepr q
  if (s.toList.contains '.') then
    ((splitChars (· = '.') s.toList).getLastD []).length > 8
  else false

def validate_quantity (quantity : ℚ) (min_qty : ℚ := 0) (max_qty : Option ℚ := none) :
    Bool × String :=
  if quantity ≤ min_qty then
    (false, "Quantity must be greater than " ++ qRepr min_qty)
  else if h : max_qty.isSome then
    if quantity > max_qty.get h then
      (false, "Quantity cannot exceed " ++ qRepr (max_qty.get h))
    else if decimalPlacesTooMany quantity then
      (false, "Quantity has too many decimal places (max 8)")
    else (true, "")
  else if decimalPlacesTooMany quantity then
    (false, "Quantity has too many decimal places (max 8)")
  else (true, "")

def validate_price (price : ℚ) (min_price : ℚ := 0) (max_price : Option ℚ := none) :
    Bool × String :=
  if price ≤ min_price then
    (false, "Price must be greater than " ++ qRepr min_price)
  else if h : max_price.isSome then
    if price > max_price.get h then
      (false, "Price cannot exceed " ++ qRepr (max_price.get h))
    else if decimalPlacesTooMany price then
      (false, "Price has too many decimal places (max 8)")
    else (true, "")
  else if decimalPlacesTooMany price then
    (false, "Price has too many decimal places (max 8)")
  else (true, "")

/-- `utils.validators.validate_symbol`: format-level symbol check
(`^[A-Z0-9]+[/]?[A-Z0-9]+$` after upper-casing, length in [6, 20]).
The quote-currency scan only logs a warning and never changes the result. -/
def symbolFormatOk (s : List Char) : Bool :=
  match s with
  | [] => false
  | _ =>
    s.all (fun c => c.isUpper || c.isDigit || c = '/')
      && s.countP (· = '/') ≤ 1
      && s.headI ≠ '/' && s.getLastD '/' ≠ '/'
      && 2 ≤ s.length

def pyUpperChar (c : Char) : Char :=
  if 'a' ≤ c ∧ c ≤ 'z' then Char.ofNat (c.toNat - 32) else c

def validate_symbol (symbol : String) : Bool × String :=
  if symbol = "" then (false, "Symbol cannot be empty")
  else
    let sym := (symbol.trim.toList.map pyUpperChar)
    if sym.length < 6 then (false, "Symbol too short")
    else if sym.length > 20 then (false, "Symbol too long")
    else if ¬ symbolFormatOk sym then (false, "Invalid symbol format")
    else (true, "")

/-! ## `core/order_executor.py` — data model -/

/-- `OrderParams` dataclass (the `extra` metadata bag is carried as an
opaque string-valued voice-command field, the only key the executor reads). -/
structure OrderParams where
  symbol : String
  side : String
  amount : ℚ
  amount_type : String
  leverage : ℤ
  order_type : String := "market"
  price : Option ℚ := none
  reduce_only : Bool := false
  client_order_id : Option String := none
  voice_command : Option String := none
  deriving Repr, DecidableEq

/-- Raw order record returned by the exchange / paper engine
(`dict.get` on the keys the executor reads). -/
structure RawOrder where
  id : Option String := none
  orderId : Option String := none
  status : Option String := none
  filled : Option ℚ := none
  amount : Option ℚ := none
  average : Option ℚ := none
  price : Option ℚ := none
  deriving Repr, DecidableEq

/-- `OrderResult` dataclass. -/
structure OrderResult where
  success : Bool
  order_id : Option String := none
  status : Option String := none
  filled_qty : Option ℚ := none
  avg_price : Option ℚ := none
  error_message : Option String := none
  raw : Option RawOrder := none
  deriving Repr, DecidableEq

/-- The executor's exception taxonomy:
`OrderValidationError`, `InsufficientBalanceError`, `OrderExecutionError`,
plus the catch-all `except Exception` branch (`unexpected`, covering e.g.
`ZeroDivisionError` from a zero leverage). -/
inductive OrderError where
  | validation (msg : String)
  | insufficientBalance (msg : String)
  | execution (msg : String)
  | unexpected (msg : String)
  deriving Repr, DecidableEq

/-- `str(e)` as observed by the pipeline's exception handlers: typed errors
carry their message; the catch-all branch prefixes "Unexpected error: ". -/
def OrderError.resultMessage : OrderError → String
  | .validation m => m
  | .insufficientBalance m => m
  | .execution m => m
  | .unexpected m => "Unexpected error: " ++ m

/-- Failure `OrderResult` produced by `_execute_order_internal`'s
`except` clauses. -/
def failureResult (e : OrderError) : OrderResult :=
  { success := false, error_message := some e.resultMessage }

/-- `exchange.get_balance()` result: either not a dict, or a dict whose
`free` / `currency` keys may be absent. -/
inductive BalanceInfo where
  | notDict : BalanceInfo
  | dict (free : Option ℚ) (currency : Option String) : BalanceInfo
  deriving Repr, DecidableEq

/-- External collaborators of the executor (spec §6): market capability,
paper engine and persistence store, modelled as abstract functions.
`get_ticker` stands for the extracted `last`/`price`/`close` price after
the Python `or`-chain (`none` when the ticker is unusable);
`normalize_symbol` is the exchange-canonical rewrite. -/
structure ExecEnv where
  exValidateSymbol : String → Bool
  normalize_symbol : String → String
  get_ticker : String → Option ℚ
  get_balance : BalanceInfo
  create_order : String → String → String → ℚ → Option ℚ → Except String RawOrder
  paper_execute : OrderParams → ℚ → ℚ → Except String RawOrder
  insert_order : String → Except String ℕ
  insert_system_log : String → String → Except String Unit
  active_exchange : String

/-! ## `OrderExecutor.validate_order`

In the source the `utils.validators` calls are made **and their returned
`(ok, msg)` tuples are discarded** — only the exchange existence check, the
`amount <= 0` check, the limit-price checks and the side/amount_type
membership checks can actually raise.  The discarded calls are kept below
as `let _ := …` to mirror the source line-by-line.
-/

def validateSideAndType (params : OrderParams) : Except OrderError OrderParams :=
  if params.side ≠ "buy" ∧ params.side ≠ "sell" then
    .error (.validation "Side sadece 'buy' veya 'sell' olabilir.")
  else if params.amount_type ≠ "usd" ∧ params.amount_type ≠ "qty" then
    .error (.validation "amount_type sadece 'usd' veya 'qty' olabilir.")
  else .ok params

def validate_order (env : ExecEnv) (params : OrderParams) : Except OrderError OrderParams :=
  let _ := validate_symbol params.symbol           -- return value discarded in the source
  if ¬ env.exValidateSymbol params.symbol then
    .error (.validation ("Geçersiz sembol: " ++ params.symbol))
  else
    let params := { params with symbol := env.normalize_symbol params.symbol }
    let _ := validate_leverage params.leverage     -- return value discarded in the source
    if params.amount ≤ 0 then
      .error (.validation "Amount pozitif olmalıdır.")
    else
      let _ := validate_quantity params.amount     -- return value discarded in the source
      if params.order_type = "limit" then
        match params.price with
        | none => .error (.validation "Limit emir için price zorunludur.")
        | some p =>
          if p ≤ 0 then .error (.validation "Price pozitif olmalıdır.")
          else
            let _ := validate_price p              -- return value discarded in the source
            validateSideAndType params
      else
        validateSideAndType params

/-! ## `OrderExecutor.calculate_position_size` -/

def calculate_position_size (amount price : ℚ) (leverage : ℤ) (amount_type : String) :
    Except OrderError (ℚ × ℚ) :=
  if price ≤ 0 then .error (.validation "Fiyat sıfır veya negatif olamaz.")
  else
    let qty : ℚ := if amount_type = "usd" then amount / price else amount
    let notional : ℚ := if amount_type = "usd" then amount else amount * price
    if qty ≤ 0 ∨ notional ≤ 0 then
      .error (.validation "Hesaplanan miktar ya da notional geçersiz.")
    else if leverage = 0 then
      -- Python: `notional / leverage` raises ZeroDivisionError, landing in
      -- the pipeline's catch-all `except Exception` branch
      .error (.unexpected "division by zero")
    else
      .ok (qty, notional / (leverage : ℚ))

/-! ## `OrderExecutor.check_balance`

Returns the outcome together with a flag recording whether
`exchange.get_balance()` was invoked (for the paper-mode bypass claim).
-/

def check_balance (env : ExecEnv) (paperEnabled enginePresent : Bool)
    (required_margin : ℚ) : Except OrderError Unit × Bool :=
  if required_margin ≤ 0 then
    (.error (.validation "Gerekli marj sıfır veya negatif olamaz."), false)
  else if paperEnabled ∧ enginePresent then
    (.ok (), false)
  else
    match env.get_balance with
    | .notDict => (.error (.execution "Bakiye bilgisi geçersiz formatta"), true)
    | .dict free currency =>
      let asset := currency.getD "USDT"
      match free with
      | none => (.error (.execution "Bakiye bilgisi hatalı veya eksik (free alanı yok)"), true)
      | some f =>
        if f < required_margin then
          (.error (.insufficientBalance
            ("Yetersiz bakiye. Gerekli: " ++ formatQ2 required_margin ++ " " ++ asset
              ++ ", Kullanılabilir: " ++ formatQ2 f ++ " " ++ asset)), true)
        else (.ok (), true)

/-! ## Effective price, dispatch, persistence, and the pipeline -/

/-- Python truthiness-based `a or b` on optional numbers
(`raw.get("filled") or raw.get("amount")` — `0` and `None` are falsy). -/
def pyOrQ (a b : Option ℚ) : Option ℚ :=
  match a with
  | some x => if x = 0 then b else some x
  | none => b

/-- Python truthiness-based `a or b` on optional strings (`""` is falsy). -/
def pyOrStr (a b : Option String) : Option String :=
  match a with
  | some x => if x = "" then b else some x
  | none => b

/-- `OrderExecutor._get_effective_price`: limit orders use the supplied
price; market orders use the ticker price (`not price or price <= 0` is an
execution error). -/
def getEffectivePrice (env : ExecEnv) (params : OrderParams) : Except OrderError ℚ :=
  if params.order_type = "limit" then
    match params.price with
    | none => .error (.validation "Limit emir için fiyat gerekli.")
    | some p => .ok p
  else
    match env.get_ticker params.symbol with
    | none => .error (.execution ("Sembol için geçerli fiyat alınamadı: " ++ params.symbol))
    | some p =>
      if p ≤ 0 then .error (.execution ("Sembol için geçerli fiyat alınamadı: " ++ params.symbol))
      else .ok p

/-- `OrderExecutor._execute_paper_order`.  Every exception inside its `try`
(including a validation error from the inner `_get_effective_price` call)
is re-raised as `OrderExecutionError(str(e))`. -/
def executePaperOrder (env : ExecEnv) (enginePresent : Bool) (params : OrderParams)
    (qty required_margin : ℚ) : Except OrderError OrderResult :=
  if ¬ enginePresent then
    .error (.execution "Paper trading aktif ama paper_engine set edilmemiş.")
  else
    match getEffectivePrice env params with
    | .error e => .error (.execution e.resultMessage)
    | .ok price =>
      match env.paper_execute params qty price with
      | .error e => .error (.execution e)
      | .ok raw =>
        .ok { success := true
              order_id := raw.id
              status := raw.status
              filled_qty := pyOrQ raw.filled raw.amount
              avg_price := pyOrQ raw.average raw.price
              raw := some raw }

/-- `OrderExecutor._execute_real_order` (exceptions inside its `try` are
re-raised as `OrderExecutionError(str(e))`, as in the paper path). -/
def executeRealOrder (env : ExecEnv) (params : OrderParams)
    (qty required_margin : ℚ) : Except OrderError OrderResult :=
  let order_type := params.order_type     -- already lowercase in the embedding
  let side := params.side
  let priceStep : Except OrderError (Option ℚ) :=
    if order_type = "limit" then
      match params.price with
      | none => .error (.execution "Limit emir için fiyat gerekli.")
      | some p => .ok (some p)
    else .ok none
  match priceStep with
  | .error e => .error e
  | .ok price =>
    match env.create_order params.symbol side order_type qty price with
    | .error e => .error (.execution e)
    | .ok raw =>
      .ok { success := true
            order_id := pyOrStr raw.id raw.orderId
            status := raw.status
            filled_qty := pyOrQ raw.filled raw.amount
            avg_price := pyOrQ raw.average raw.price
            raw := some raw }

/-- Persistence calls issued through the database manager, recorded as an
event log so that "no persistence call is made" is a provable statement. -/
inductive PersistCall where
  | insertOrder (symbol side : String) (qty : ℚ) (isPaper : Bool)
  | insertSystemLog (level message : String)
  deriving Repr, DecidableEq

/-- `OrderExecutor.record_order`: writes the order row then a system-log
row; on any exception it writes an error log row and re-raises. -/
def record_order (env : ExecEnv) (paperEnabled : Bool) (params : OrderParams)
    (result : OrderResult) (required_margin qty : ℚ) :
    List PersistCall × Option String :=
  let orderCall := PersistCall.insertOrder params.symbol params.side qty paperEnabled
  match env.insert_order params.symbol with
  | .error e =>
    -- `except Exception`: log the failure, then `raise`
    (orderCall :: [PersistCall.insertSystemLog "ERROR" "record_order failed"], some e)
  | .ok order_id =>
    let logCall := PersistCall.insertSystemLog
      (if result.success then "INFO" else "ERROR")
      ("Order recorded (order_id=" ++ toString order_id ++ ")")
    match env.insert_system_log "log" "log" with
    | .error e =>
      (orderCall :: logCall :: [PersistCall.insertSystemLog "ERROR" "record_order failed"], some e)
    | .ok _ => (orderCall :: [logCall], none)

/-- `OrderExecutor._execute_order_internal`: the shared pipeline.  All
typed errors (and the catch-all branch) are converted into a non-success
`OrderResult`; the returned list records every persistence call made. -/
def executeOrderInternal (env : ExecEnv) (paperEnabled enginePresent : Bool)
    (params : OrderParams) : OrderResult × List PersistCall :=
  match validate_order env params with
  | .error e => (failureResult e, [])
  | .ok vp =>
    match getEffectivePrice env vp with
    | .error e => (failureResult e, [])
    | .ok eff =>
      match calculate_position_size vp.amount eff vp.leverage vp.amount_type with
      | .error e => (failureResult e, [])
      | .ok (qty, required_margin) =>
        match (check_balance env paperEnabled enginePresent required_margin).1 with
        | .error e => (failureResult e, [])
        | .ok _ =>
          let dispatched :=
            if paperEnabled ∧ enginePresent then
              executePaperOrder env enginePresent vp qty required_margin
            else
              executeRealOrder env vp qty required_margin
          match dispatched with
          | .error e => (failureResult e, [])
          | .ok result =>
            match record_order env paperEnabled vp result required_margin qty with
            | (calls, none) => (result, calls)
            | (calls, some e) =>
              -- a persistence exception escapes `record_order`'s re-raise into
              -- the pipeline's catch-all `except Exception` branch
              (failureResult (.unexpected e), calls)

/-- `OrderExecutor.execute_market_order`.  The type guard `raise`s
**outside** the internal pipeline's `try`, so a violation propagates to the
caller as an exception (`Except.error`) with no persistence calls. -/
def execute_market_order (env : ExecEnv) (paperEnabled enginePresent : Bool)
    (params : OrderParams) : Except OrderError OrderResult × List PersistCall :=
  if params.order_type ≠ "market" then
    (.error (.validation
      "execute_market_order sadece 'market' tipinde emirler için kullanılmalıdır."), [])
  else
    let (r, calls) := executeOrderInternal env paperEnabled enginePresent params
    (.ok r, calls)

/-- `OrderExecutor.execute_limit_order` (same guard structure). -/
def execute_limit_order (env : ExecEnv) (paperEnabled enginePresent : Bool)
    (params : OrderParams) : Except OrderError OrderResult × List PersistCall :=
  if params.order_type ≠ "limit" then
    (.error (.validation
      "execute_limit_order sadece 'limit' tipinde emirler için kullanılmalıdır."), [])
  else if params.price = none then
    (.error (.validation "Limit emir için price zorunludur."), [])
  else
    let (r, calls) := executeOrderInternal env paperEnabled enginePresent params
    (.ok r, calls)

/-! ## `core/risk_manager.py` -/

/-- `OrderRiskContext` dataclass. -/
structure OrderRiskContext where
  symbol : String
  side : String
  notional_usd : ℚ
  leverage : ℤ
  is_paper : Bool
  deriving Repr, DecidableEq

/-- Collaborators of the risk manager: the settings store (whose reads may
raise) and Python `float(str)` parsing, both abstract. -/
structure RiskEnv where
  get_setting : String → Except String (Option String)
  parse_float : String → Option ℚ

/-- `RiskManager._get_float_setting`: a raising read, an absent key, or an
unparseable value all yield `none` (the rule is then silently disabled). -/
def getFloatSetting (env : RiskEnv) (key : String) : Option ℚ :=
  match env.get_setting key with
  | .error _ => none
  | .ok none => none
  | .ok (some v) => env.parse_float v

/-- Python `int(float)`: truncation toward zero (used in the leverage
limit message). -/
def pyIntOfQ (q : ℚ) : ℤ :=
  if q < 0 then -(Int.floor (-q)) else Int.floor q

/-- Audit events attempted by `RiskManager._log_risk_event`.  The source
swallows any `insert_system_log` failure, so the attempt itself is the
observable behaviour and it never affects control flow. -/
inductive RiskEvent where
  | riskLog (level message : String)
  deriving Repr, DecidableEq

/-- `RiskManager.check_order_risk`: max-notional rule first, then
max-leverage rule; each rule is active only when its setting parses as a
number; a violation logs an audit event and raises `RiskLimitError(msg)`. -/
def check_order_risk (env : RiskEnv) (ctx : OrderRiskContext) :
    Except String Unit × List RiskEvent :=
  let max_notional := getFloatSetting env "risk.max_notional_usd"
  match max_notional with
  | some limit =>
    if ctx.notional_usd > limit then
      (.error ("Emir notional'ı risk limitini aşıyor: notional="
          ++ formatQ2 ctx.notional_usd ++ " USDT, limit=" ++ formatQ2 limit ++ " USDT"),
        [RiskEvent.riskLog "RISK" "Max notional limit exceeded"])
    else checkLeverageRule env ctx
  | none => checkLeverageRule env ctx
where
  checkLeverageRule (env : RiskEnv) (ctx : OrderRiskContext) :
      Except String Unit × List RiskEvent :=
    match getFloatSetting env "risk.max_leverage" with
    | some limit =>
      if (ctx.leverage : ℚ) > limit then
        (.error ("Kaldıraç risk limitini aşıyor: leverage=" ++ toString ctx.leverage
            ++ ", limit=" ++ toString (pyIntOfQ limit)),
          [RiskEvent.riskLog "RISK" "Max leverage limit exceeded"])
      else (.ok (), [])
    | none => (.ok (), [])

/-! ## `core/command_parser.py` — text utilities

Python string primitives used by the parser, restricted to the character
repertoire this parser handles (ASCII plus the Turkish letters appearing in
its vocabulary).
-/

/-- Python `str.lower()` on the parser's character repertoire.
(Uppercase dotted İ, which CPython lowers to "i" plus a combining dot, is
folded to plain "i"; no verified claim involves it.) -/
def pyLowerChar (c : Char) : Char :=
  if 'A' ≤ c ∧ c ≤ 'Z' then Char.ofNat (c.toNat + 32)
  else if c = 'Ğ' then 'ğ'
  else if c = 'Ü' then 'ü'
  else if c = 'Ş' then 'ş'
  else if c = 'Ö' then 'ö'
  else if c = 'Ç' then 'ç'
  else if c = 'İ' then 'i'
  else c

def pyLower (s : String) : String :=
  String.mk (s.toList.map pyLowerChar)

/-- Python whitespace (`str.split()` / `str.strip()` default set). -/
def isPySpace (c : Char) : Bool :=
  c = ' ' || c = '\t' || c = '\n' || c = '\r' || c = '\x0b' || c = '\x0c'

def pyStrip (s : String) : String :=
  String.mk (((s.toList.dropWhile isPySpace).reverse.dropWhile isPySpace).reverse)

/-- `' '.join(text.split())`: collapse whitespace runs to single spaces. -/
def collapseWS (s : String) : String :=
  String.mk (List.intercalate [ ' ' ] ((splitChars isPySpace s.toList).filter (· ≠ [])))

/-- Contiguous-sublist search used for Python substring membership. -/
def listInfixOf (n : List Char) : List Char → Bool
  | [] => n.isEmpty
  | c :: rest => n.isPrefixOf (c :: rest) || listInfixOf n rest

/-- `needle in haystack` (Python substring membership). -/
def strContains (haystack needle : String) : Bool :=
  listInfixOf needle.toList haystack.toList

/-- Word characters for Python's Unicode `\b`, on the parser's repertoire. -/
def isWordChar (c : Char) : Bool :=
  c.isAlpha || c.isDigit || c = '_'
    || c = 'ı' || c = 'ğ' || c = 'ü' || c = 'ş' || c = 'ö' || c = 'ç'

/-- Boundary before a match: start of string or a non-word character
(every searched word starts with a word character). -/
def boundaryBefore : Option Char → Bool
  | none => true
  | some p => ¬ isWordChar p

/-- Boundary after a match: end of string or a non-word character. -/
def boundaryAfter : List Char → Bool
  | [] => true
  | c :: _ => ¬ isWordChar c

/-- `re.search(r'\b' + w + r'\b', s)` for a word `w` made of word
characters: scan left to right carrying the previous character. -/
def wordFindAux (w : List Char) : List Char → Option Char → Bool
  | [], _ => false
  | c :: rest, prev =>
    (boundaryBefore prev && w.isPrefixOf (c :: rest) && boundaryAfter ((c :: rest).drop w.length))
      || wordFindAux w rest (some c)

def wordFind (w : String) (s : String) : Bool :=
  wordFindAux w.toList s.toList none

/-- `re.sub(r'\b' + w + r'\b', r, s)`: replace every word-bounded,
non-overlapping occurrence, scanning the original text left to right.
Structural recursion on a fuel bound (`fuel ≥ length` always suffices:
every step consumes at least one character). -/
def wordSubAux (w r : List Char) : ℕ → List Char → Option Char → List Char
  | 0, s, _ => s
  | _ + 1, [], _ => []
  | fuel + 1, c :: rest, prev =>
    if ¬ w.isEmpty && boundaryBefore prev && w.isPrefixOf (c :: rest)
        && boundaryAfter ((c :: rest).drop w.length) then
      r ++ wordSubAux w r fuel ((c :: rest).drop w.length) (some (w.getLastD c))
    else
      c :: wordSubAux w r fuel rest (some c)

def wordSub (w r : String) (s : String) : String :=
  String.mk (wordSubAux w.toList r.toList s.toList.length s.toList none)

/-! ## `CommandParser` — vocabulary and parsing -/

/-- `CommandParser.CRYPTO_ALIASES` in source (dict insertion) order. -/
def CRYPTO_ALIASES : List (String × String) :=
  [("bitcoin", "BTCUSDT"), ("btc", "BTCUSDT"), ("bitkoyn", "BTCUSDT"), ("bit", "BTCUSDT"),
   ("ethereum", "ETHUSDT"), ("eth", "ETHUSDT"), ("eter", "ETHUSDT"), ("eterium", "ETHUSDT"),
   ("bnb", "BNBUSDT"), ("binance", "BNBUSDT"),
   ("solana", "SOLUSDT"), ("sol", "SOLUSDT"),
   ("xrp", "XRPUSDT"), ("ripple", "XRPUSDT"),
   ("doge", "DOGEUSDT"), ("dogecoin", "DOGEUSDT"), ("doj", "DOGEUSDT"),
   ("ada", "ADAUSDT"), ("cardano", "ADAUSDT"),
   ("dot", "DOTUSDT"), ("polkadot", "DOTUSDT"),
   ("avax", "AVAXUSDT"), ("avalanche", "AVAXUSDT"),
   ("link", "LINKUSDT"), ("chainlink", "LINKUSDT"),
   ("ltc", "LTCUSDT"), ("litecoin", "LTCUSDT"),
   ("matic", "MATICUSDT"), ("polygon", "MATICUSDT")]

def BUY_KEYWORDS : List String :=
  ["al", "satın al", "satınal", "buy", "long", "uzun",
   "aç", "pozisyon aç", "gir", "alım", "alalım"]

def SELL_KEYWORDS : List String :=
  ["sat", "sell", "short", "kısa", "açığa sat", "satış", "satalım"]

def CLOSE_KEYWORDS : List String :=
  ["kapat", "pozisyon kapat", "close", "çık", "çıkış",
   "pozisyonu kapat", "kapatalım", "kapat pozisyonu"]

def CANCEL_KEYWORDS : List String :=
  ["iptal", "iptal et", "cancel", "vazgeç", "sil",
   "emri iptal", "emri iptal et", "order iptal"]

def STATUS_KEYWORDS : List String :=
  ["durum", "status", "pozisyon", "pozisyonlar",
   "açık pozisyon", "ne var", "göster"]

def BALANCE_KEYWORDS : List String :=
  ["bakiye", "balance", "para", "hesap", "cüzdan", "ne kadar", "sermaye"]

/-- `CommandParser.NUMBER_WORDS` in source (dict insertion) order. -/
def NUMBER_WORDS : List (String × ℕ) :=
  [("bir", 1), ("iki", 2), ("üç", 3), ("dört", 4), ("beş", 5),
   ("altı", 6), ("yedi", 7), ("sekiz", 8), ("dokuz", 9), ("on", 10),
   ("yirmi", 20), ("otuz", 30), ("kırk", 40), ("elli", 50),
   ("altmış", 60), ("yetmiş", 70), ("seksen", 80), ("doksan", 90),
   ("yüz", 100), ("bin", 1000)]

/-- The character replacements applied by `_normalize_text`, in source
order: dotless ı folds to ASCII i; curly quotes fold to ASCII quotes. -/
def NORMALIZE_REPLACEMENTS : List (Char × Char) :=
  [('ı', 'i'), ('‘', '\''), ('’', '\''), ('“', '"'), ('”', '"')]

/-- `CommandParser._normalize_text`: lowercase + strip, the replacement
table above, then whitespace collapse. -/
def normalize_text (text : String) : String :=
  let t := pyStrip (pyLower text)
  let t := NORMALIZE_REPLACEMENTS.foldl
    (fun acc p => String.mk (acc.toList.map (fun c => if c = p.1 then p.2 else c))) t
  collapseWS t

/-- `CommandParser._detect_action`: six keyword sets checked in fixed
priority order, substring match suffices. -/
def detect_action (text : String) : Option String :=
  let tl := pyLower text
  if CLOSE_KEYWORDS.any (fun k => strContains tl k) then some "close"
  else if CANCEL_KEYWORDS.any (fun k => strContains tl k) then some "cancel"
  else if BUY_KEYWORDS.any (fun k => strContains tl k) then some "buy"
  else if SELL_KEYWORDS.any (fun k => strContains tl k) then some "sell"
  else if STATUS_KEYWORDS.any (fun k => strContains tl k) then some "status"
  else if BALANCE_KEYWORDS.any (fun k => strContains tl k) then some "balance"
  else none

/-- `CommandParser._extract_symbol`: first alias (in table order) found
word-bounded in the text. -/
def extract_symbol (text : String) : Option String :=
  let tl := pyLower text
  (CRYPTO_ALIASES.find? (fun p => wordFind p.1 tl)).map (fun p => p.2)

/-- `CommandParser._convert_word_numbers`: replace each number word (in
table order) by its digits, word-bounded. -/
def convert_word_numbers (text : String) : String :=
  NUMBER_WORDS.foldl (fun acc p => wordSub p.1 (toString p.2) acc) text

/-- `int()` on a run of ASCII digits. -/
def digitsToNat (s : List Char) : Option ℕ :=
  if s.isEmpty || ¬ s.all Char.isDigit then none
  else some (s.foldl (fun acc c => acc * 10 + (c.toNat - 48)) 0)

/-- `float()` on a regex group of shape `\d+([.,]\d+)?` after the comma
was replaced by a dot. -/
def parseAmountStr (s : String) : Option ℚ :=
  match splitChars (· = '.') s.toList with
  | [i] => (digitsToNat i).map (fun n => (n : ℚ))
  | [i, f] =>
    match digitsToNat i, digitsToNat f with
    | some n, some m => some ((n : ℚ) + (m : ℚ) / (10 : ℚ) ^ f.length)
    | _, _ => none
  | _ => none

/-- Greedy digit run at the head of the character list. -/
def takeDigits (s : List Char) : List Char × List Char :=
  (s.takeWhile Char.isDigit, s.dropWhile Char.isDigit)

/-- Try one amount pattern at the current position: `\d+` (greedy), an
optional `[.,]\d+` group when the pattern allows decimals, `\s*`, then one
of the suffix alternatives (none required for the bare-number pattern).
The only backtracking the patterns admit is dropping the optional decimal
group (the suffixes never start with a digit). -/
def tryAmountAt (allowDecimal : Bool) (suffixes : List String) (suffixRequired : Bool)
    (s : List Char) : Option String :=
  let (intDigits, afterInt) := takeDigits s
  if intDigits.isEmpty then none
  else
    let decimalPart : Option (List Char × List Char) :=
      if allowDecimal then
        match afterInt with
        | sep :: rest =>
          if (sep = '.' || sep = ',') && !(rest.takeWhile Char.isDigit).isEmpty then
            some (sep :: rest.takeWhile Char.isDigit, rest.dropWhile Char.isDigit)
          else none
        | [] => none
      else none
    let suffixOkAt (rest : List Char) : Bool :=
      let afterWS := rest.dropWhile isPySpace
      suffixes.any (fun suf => suf.toList.isPrefixOf afterWS)
    if ¬ suffixRequired then
      -- greedy: the decimal group is taken when present
      match decimalPart with
      | some (dec, _) => some (String.mk (intDigits ++ dec))
      | none => some (String.mk intDigits)
    else
      match decimalPart with
      | some (dec, afterDec) =>
        if suffixOkAt afterDec then some (String.mk (intDigits ++ dec))
        else if suffixOkAt afterInt then some (String.mk intDigits)
        else none
      | none =>
        if suffixOkAt afterInt then some (String.mk intDigits)
        else none

/-- `re.search` for one amount pattern: leftmost position wins. -/
def searchAmount (allowDecimal : Bool) (suffixes : List String) (suffixRequired : Bool) :
    List Char → Option String
  | [] => none
  | c :: rest =>
    match tryAmountAt allowDecimal suffixes suffixRequired (c :: rest) with
    | some g => some g
    | none => searchAmount allowDecimal suffixes suffixRequired rest

/-- `CommandParser.AMOUNT_PATTERNS` as (decimals allowed, suffix
alternatives, suffix required), in source priority order. -/
def AMOUNT_PATTERNS : List (Bool × List String × Bool) :=
  [(true, ["dolar", "dollar", "$", "usd", "usdt"], true),
   (true, ["tl", "lira", "türk lirası"], true),
   (true, ["euro", "€", "eur"], true),
   (false, ["k", "bin"], true),
   (true, [], false)]

/-- `CommandParser._extract_amount`. -/
def extract_amount (text : String) : Option ℚ :=
  let tl := pyLower text
  let conv := convert_word_numbers tl
  let firstMatch := AMOUNT_PATTERNS.findSome?
    (fun pat => searchAmount pat.1 pat.2.1 pat.2.2 conv.toList)
  match firstMatch with
  | none => none
  | some g =>
    match parseAmountStr (String.mk (g.toList.map (fun c => if c = ',' then '.' else c))) with
    | none => none
    | some a =>
      -- `'k' in text_lower or 'bin' in text_lower` is checked on the
      -- pre-conversion lowered text, as plain substring membership
      if (strContains tl "k" || strContains tl "bin") ∧ a < 1000 then some (a * 1000)
      else some a

/-- `ParsedCommand` dataclass (`side` carried as the enum's string value). -/
structure ParsedCommand where
  action : String
  side : Option String := none
  symbol : Option String := none
  amount : Option ℚ := none
  leverage : Option ℤ := none
  order_type : String := "market"
  price : Option ℚ := none
  raw_text : String := ""
  confidence : ℚ := 1
  deriving Repr, DecidableEq

/-- `CommandParser.parse`.  `if not cmd.symbol` / `if not cmd.amount` are
Python truthiness tests: a missing symbol triggers the 0.8 penalty and a
missing **or zero** amount triggers the 0.5 penalty. -/
def parse (default_symbol : String) (text : String) : Option ParsedCommand :=
  if text = "" then none
  else
    let t := normalize_text text
    match detect_action t with
    | none => none
    | some action =>
      if action = "buy" ∨ action = "sell" then
        let sym := extract_symbol t
        let amt := extract_amount t
        let (symbol, conf1) : String × ℚ :=
          match sym with
          | some s => (s, 1)
          | none => (default_symbol, (0.8 : ℚ))
        let conf2 : ℚ :=
          match amt with
          | some a => if a = 0 then conf1 * (0.5 : ℚ) else conf1
          | none => conf1 * (0.5 : ℚ)
        some { action := action
               side := some (if action = "buy" then "buy" else "sell")
               symbol := some symbol
               amount := amt
               raw_text := t
               confidence := conf2 }
      else if action = "close" then
        some { action := action, symbol := extract_symbol t, raw_text := t }
      else
        some { action := action, raw_text := t }

/-! ## `CommandValidator` -/

def MIN_AMOUNT : ℚ := 1
def MAX_AMOUNT : ℚ := 100000

def VALID_SYMBOLS : List String :=
  ["BTCUSDT", "ETHUSDT", "BNBUSDT", "SOLUSDT", "XRPUSDT",
   "DOGEUSDT", "ADAUSDT", "DOTUSDT", "AVAXUSDT", "LINKUSDT",
   "LTCUSDT", "MATICUSDT"]

/-- The error list accumulated by `CommandValidator.validate` for a
non-`None` command, in source order: symbol check and amount check (for
buy/sell only), then the confidence check. -/
def validateErrors (cmd : ParsedCommand) : List String :=
  ((if cmd.action = "buy" ∨ cmd.action = "sell" then
      (match cmd.symbol with
       | some s =>
         if s ≠ "" ∧ ¬ VALID_SYMBOLS.contains s then ["Geçersiz sembol: " ++ s] else []
       | none => []) ++
      (match cmd.amount with
       | some a =>
         if a < MIN_AMOUNT then
           ["Miktar çok düşük: " ++ qRepr a ++ " USD (min: " ++ qRepr MIN_AMOUNT ++ ")"]
         else if a > MAX_AMOUNT then
           ["Miktar çok yüksek: " ++ qRepr a ++ " USD (max: " ++ qRepr MAX_AMOUNT ++ ")"]
         else []
       | none => ["Miktar belirtilmedi"])
    else []) ++
    (if cmd.confidence < (0.5 : ℚ) then ["Komut belirsiz, lütfen tekrar deneyin"] else []))

/-- `CommandValidator.validate` (`cmd` may be Python `None`). -/
def validate (cmd : Option ParsedCommand) : Bool × List String :=
  match cmd with
  | none => (false, ["Komut ayrıştırılamadı"])
  | some c =>
    let errors := validateErrors c
    (decide (errors.length = 0), errors)

/-! ## `core/voice_listener.py` — active-mode loop

The listening state machine's active window is modelled as a sequence of
loop iterations.  Each iteration of `_active_loop` observes the elapsed
wall-clock time since `activate()` and the outcome of one audio chunk
(capture may raise, the chunk has a loudness level, transcription yields an
optional transcript and may itself raise).  Wake-word stripping
(`_remove_wake_word`, a case-insensitive regex removal) is carried as an
abstract function parameter: the verified claim quantifies over the
post-strip transcript, not over its computation.
-/

inductive ListenerMode where
  | idle | passive | active | processing
  deriving Repr, DecidableEq

structure ListenerSettings where
  active_mode_duration : ℚ := 15
  sensitivity : ℤ := 5
  tts_present : Bool := false
  deriving Repr, DecidableEq

/-- Qt signals emitted (plus TTS side effects) during the active loop. -/
inductive ListenerEvent where
  | audioLevel (level : ℤ)
  | modeChanged (m : ListenerMode)
  | commandReceived (text : String)
  | transcriptReady (text : String)
  | spokeMessage (key : String)
  | errorRaised (msg : String)
  deriving Repr, DecidableEq

/-- Outcome of one audio chunk inside `_active_loop`'s `try` block. -/
inductive ChunkOutcome where
  /-- capture raised: caught, logged, mode reset to active, no event -/
  | failed
  /-- capture succeeded with this level; transcription (if reached)
  returned this transcript (`none` for a Python-falsy result) -/
  | audio (level : ℤ) (transcript : Option String)
  /-- capture succeeded but transcription raised -/
  | transcribeRaised (level : ℤ)
  deriving Repr, DecidableEq

/-- One `_active_loop` iteration observation. -/
structure ActiveChunk where
  elapsed : ℚ
  outcome : ChunkOutcome
  deriving Repr, DecidableEq

/-- `threshold = max(1, 16 - sensitivity)`. -/
def listenThreshold (st : ListenerSettings) : ℤ :=
  max 1 (16 - st.sensitivity)

/-- One call of `VoiceListener._active_loop` (entered in mode `active`):
returns the mode after the call and the events it emitted.  The timeout
branch is `deactivate()`: back to `passive`, an optional TTS timeout
notice, and no error event. -/
def activeStep (removeWake : String → String) (st : ListenerSettings) (c : ActiveChunk) :
    ListenerMode × List ListenerEvent :=
  if c.elapsed ≥ st.active_mode_duration then
    (.passive, [ListenerEvent.modeChanged .passive]
      ++ (if st.tts_present then [ListenerEvent.spokeMessage "timeout"] else []))
  else
    match c.outcome with
    | .failed => (.active, [])
    | .transcribeRaised level =>
      if level < listenThreshold st then (.active, [ListenerEvent.audioLevel level])
      else (.active, [ListenerEvent.audioLevel level,
        ListenerEvent.modeChanged .processing, ListenerEvent.modeChanged .active])
    | .audio level transcript =>
      if level < listenThreshold st then (.active, [ListenerEvent.audioLevel level])
      else
        let evs := [ListenerEvent.audioLevel level, ListenerEvent.modeChanged .processing]
        match transcript with
        | none => (.active, evs ++ [ListenerEvent.modeChanged .active])
        | some t0 =>
          if pyStrip t0 = "" then (.active, evs ++ [ListenerEvent.modeChanged .active])
          else
            let command := removeWake (pyStrip t0)
            if command = "" then (.active, evs ++ [ListenerEvent.modeChanged .active])
            else
              (.passive, evs ++ [ListenerEvent.commandReceived command,
                ListenerEvent.transcriptReady command]
                ++ (if st.tts_present then [ListenerEvent.spokeMessage "command_received"] else [])
                ++ [ListenerEvent.modeChanged .passive])

/-- Runs `_active_loop` iterations (the `run()` scheduler keeps calling it
while the mode stays `active`); stops when the mode leaves `active` or the
script of observations is exhausted. -/
def runActive (removeWake : String → String) (st : ListenerSettings) :
    List ActiveChunk → ListenerMode × List ListenerEvent
  | [] => (.active, [])
  | c :: rest =>
    match activeStep removeWake st c with
    | (.active, evs) =>
      let (m, evs') := runActive removeWake st rest
      (m, evs ++ evs')
    | (m, evs) => (m, evs)

/-! ## Concrete fixtures used by witnesses and counterexamples -/

def rawTriv : RawOrder := { id := some "1", status := some "closed" }

/-- A benign environment: every external call succeeds. -/
def envTriv : ExecEnv :=
  { exValidateSymbol := fun _ => true
    normalize_symbol := fun s => s
    get_ticker := fun _ => some 50000
    get_balance := .dict (some 1000000) none
    create_order := fun _ _ _ _ _ => .ok rawTriv
    paper_execute := fun _ _ _ => .ok rawTriv
    insert_order := fun _ => .ok 1
    insert_system_log := fun _ _ => .ok ()
    active_exchange := "binance" }

/-- Like `envTriv`, but the account holds only 50 USDT free. -/
def envPoor : ExecEnv := { envTriv with get_balance := .dict (some 50) none }

/-- A limit-typed order handed to the market entry point. -/
def pLimit : OrderParams :=
  { symbol := "BTCUSDT", side := "buy", amount := 1000, amount_type := "usd",
    leverage := 10, order_type := "limit", price := none }

/-- An order whose leverage (200) lies far above the 125 bound. -/
def p200 : OrderParams :=
  { symbol := "BTCUSDT", side := "buy", amount := 1000, amount_type := "usd",
    leverage := 200 }

/-- The success result the benign environment produces. -/
def r200 : OrderResult :=
  { success := true, order_id := some "1", status := some "closed", raw := some rawTriv }

/-- Settings store with no risk keys configured. -/
def envRiskNone : RiskEnv :=
  { get_setting := fun _ => .ok none, parse_float := fun _ => none }

/-- Settings store with `risk.max_notional_usd = "1000"`. -/
def envRisk1000 : RiskEnv :=
  { get_setting := fun k => if k = "risk.max_notional_usd" then .ok (some "1000") else .ok none
    parse_float := fun s => if s = "1000" then some 1000 else none }

def ctx1500 : OrderRiskContext :=
  { symbol := "BTCUSDT", side := "buy", notional_usd := 1500, leverage := 10, is_paper := false }

/-- Active-window script: one silent-command chunk, then the timeout. -/
def chunksTimeout : List ActiveChunk :=
  [{ elapsed := 0, outcome := .audio 20 (some "whisper") },
   { elapsed := 16, outcome := .failed }]

/-- Default listener settings (15-second active window). -/
def stDefault : ListenerSettings := {}

/-- A buy command with a too-low amount and rock-bottom confidence. -/
def cmdLow : ParsedCommand := { action := "buy", amount := some 0, confidence := 0 }

/-! ## Helper lemmas -/

theorem listInfixOf_of_isPrefixOf {n l : List Char} (h : n.isPrefixOf l = true) :
    listInfixOf n l = true := by
  cases l with
  | nil =>
    cases n with
    | nil => rfl
    | cons a as => simp [List.isPrefixOf] at h
  | cons c rest => simp [listInfixOf, h]

theorem listInfixOf_of_infix {n l : List Char} (h : n <:+: l) : listInfixOf n l = true := by
  induction l with
  | nil =>
    rw [List.infix_nil] at h
    simp [h, listInfixOf]
  | cons c rest ih =>
    rcases List.infix_cons_iff.mp h with h1 | h2
    · have := listInfixOf_of_isPrefixOf (List.isPrefixOf_iff_prefix.mpr h1)
      simpa [listInfixOf] using this
    · simp [listInfixOf, ih h2]

theorem strContains_of_infix {s sub : String} (h : sub.toList <:+: s.toList) :
    strContains s sub = true :=
  listInfixOf_of_infix h

/-! ## C1 — type-guard behaviour of the executor entry points -/

/-- C1 counterexample: calling `execute_market_order` on a limit-typed
`OrderParams` does **not** return a failure `OrderResult`.  The type guard
raises `OrderValidationError` outside the internal pipeline's `try`, so
the exception propagates to the caller (modelled as `Except.error`),
refuting the claim that a non-success result is returned with no exception
propagating. -/
theorem C1_counterexample :
    execute_market_order envTriv false false pLimit =
      (Except.error (OrderError.validation
        "execute_market_order sadece 'market' tipinde emirler için kullanılmalıdır."), []) := rfl

/-- C1 (amended): a type-guard violation makes `execute_market_order` /
`execute_limit_order` raise `OrderValidationError` to the caller before
the pipeline runs; no persistence call is made in these cases, and no
`OrderResult` (success or failure) is produced. -/
theorem C1_amended (env : ExecEnv) (pe ep : Bool) (params : OrderParams) :
    (params.order_type ≠ "market" →
      execute_market_order env pe ep params =
        (Except.error (OrderError.validation
          "execute_market_order sadece 'market' tipinde emirler için kullanılmalıdır."), []))
    ∧ (params.order_type ≠ "limit" →
      execute_limit_order env pe ep params =
        (Except.error (OrderError.validation
          "execute_limit_order sadece 'limit' tipinde emirler için kullanılmalıdır."), []))
    ∧ (params.order_type = "limit" → params.price = none →
      execute_limit_order env pe ep params =
        (Except.error (OrderError.validation "Limit emir için price zorunludur."), [])) := by
  refine ⟨fun h => ?_, fun h => ?_, fun h hp => ?_⟩
  · simp [execute_market_order, h]
  · simp [execute_limit_order, h]
  · simp [execute_limit_order, h, hp]

/-- C1 amended witness: the guard facts at the concrete limit-typed order. -/
theorem C1_amended_witness :
    (pLimit.order_type ≠ "market" ∧
      execute_market_order envTriv false false pLimit =
        (Except.error (OrderError.validation
          "execute_market_order sadece 'market' tipinde emirler için kullanılmalıdır."), []))
    ∧ (pLimit.order_type = "limit" ∧ pLimit.price = none ∧
      execute_limit_order envTriv false false pLimit =
        (Except.error (OrderError.validation "Limit emir için price zorunludur."), [])) :=
  ⟨⟨by decide, (C1_amended envTriv false false pLimit).1 (by decide)⟩,
   ⟨rfl, rfl, (C1_amended envTriv false false pLimit).2.2 rfl rfl⟩⟩

/-! ## C2 — leverage bounds are not enforced by `validate_order` -/

/-- C2: the code bug, evaluated.  `validate_leverage 200` reports the
bound violation, but `OrderExecutor.validate_order` discards the returned
tuple, so an order with leverage 200 passes validation and the full
pipeline proceeds to sizing, balance check and dispatch, returning a
success result — no validation error is ever raised for the leverage. -/
theorem C2_leverage_unchecked :
    validate_leverage 200 = (false, "Leverage cannot exceed 125x")
    ∧ validate_order envTriv p200 = Except.ok p200
    ∧ (execute_market_order envTriv false false p200).1 = Except.ok r200
    ∧ r200.success = true := by
  refine ⟨rfl, rfl, ?_, rfl⟩
  norm_num +decide [execute_market_order, executeOrderInternal, validate_order, validateSideAndType,
    getEffectivePrice, calculate_position_size, check_balance, executeRealOrder, record_order,
    envTriv, p200, r200, rawTriv, pyOrStr, pyOrQ]

/-! ## C3 — paper-mode balance bypass and the insufficient-balance category -/

/-- C3: with paper trading enabled and a paper engine present, a positive
`required_margin` makes `check_balance` return normally without invoking
the balance fetch (flag `false`), for **every** environment — so the
outcome is independent of any balance value.  In real mode, a fetched free
balance below `required_margin` raises the distinct
`InsufficientBalanceError` (not a generic validation or execution error). -/
theorem C3_check_balance (env env' : ExecEnv) (ep : Bool) (margin f : ℚ)
    (cur : Option String) (hm : 0 < margin) :
    check_balance env true true margin = (Except.ok (), false)
    ∧ (env'.get_balance = BalanceInfo.dict (some f) cur → f < margin →
        (check_balance env' false ep margin).1 = Except.error
          (OrderError.insufficientBalance
            ("Yetersiz bakiye. Gerekli: " ++ formatQ2 margin ++ " " ++ cur.getD "USDT"
              ++ ", Kullanılabilir: " ++ formatQ2 f ++ " " ++ cur.getD "USDT"))) := by
  have hm' : ¬ margin ≤ 0 := not_le.mpr hm
  constructor
  · simp [check_balance, hm']
  · intro hb hf
    simp [check_balance, hm', hb, hf]

/-- C3 witness: paper mode with margin 100 never fetches and succeeds; real
mode with free balance 50 against margin 100 fails as insufficient. -/
theorem C3_check_balance_witness :
    (0 : ℚ) < 100
    ∧ check_balance envTriv true true 100 = (Except.ok (), false)
    ∧ envPoor.get_balance = BalanceInfo.dict (some 50) none
    ∧ (50 : ℚ) < 100
    ∧ (check_balance envPoor false false 100).1 = Except.error
        (OrderError.insufficientBalance
          ("Yetersiz bakiye. Gerekli: " ++ formatQ2 100 ++ " " ++ (none : Option String).getD "USDT"
            ++ ", Kullanılabilir: " ++ formatQ2 50 ++ " " ++ (none : Option String).getD "USDT")) :=
  ⟨by norm_num,
   (C3_check_balance envTriv envPoor false 100 50 none (by norm_num)).1,
   rfl,
   by norm_num,
   (C3_check_balance envTriv envPoor false 100 50 none (by norm_num)).2 rfl (by norm_num)⟩

/-! ## C4 — position-sizing algebra -/

/-- C4 counterexample: the claim as stated quantifies only over
`price > 0` and `leverage ≥ 1`; at `amount = -1`, `price = 1`,
`leverage = 1`, `amount_type = "usd"` it predicts the return value
`(quantity, margin) = (-1, -1)`, but `calculate_position_size` instead
raises a validation error (degenerate quantity/notional). -/
theorem C4_counterexample :
    calculate_position_size (-1) 1 1 "usd" =
      Except.error (OrderError.validation "Hesaplanan miktar ya da notional geçersiz.") := by
  norm_num +decide [calculate_position_size]

/-- C4 (amended): for `price > 0`, `leverage ≥ 1` **and positive amount**,
the usd direction on notional `n` returns `(n/price, n/leverage)`, and the
qty direction on quantity `n/price` returns the same pair — both
directions agree on quantity and required margin. -/
theorem C4_amended (n price : ℚ) (lev : ℤ) (hp : 0 < price) (hl : 1 ≤ lev) (hn : 0 < n) :
    calculate_position_size n price lev "usd" = Except.ok (n / price, n / (lev : ℚ))
    ∧ calculate_position_size (n / price) price lev "qty" =
        Except.ok (n / price, n / (lev : ℚ)) := by
  have hp' : ¬ price ≤ 0 := not_le.mpr hp
  have hq : 0 < n / price := div_pos hn hp
  have hq' : ¬ (n / price ≤ 0 ∨ n ≤ 0) := by push_neg; exact ⟨hq, hn⟩
  have hlev0 : ¬ lev = 0 := by omega
  have hcancel : n / price * price = n := div_mul_cancel₀ n (ne_of_gt hp)
  constructor
  · simp +decide only [calculate_position_size, if_neg hp']
    rw [if_neg (by simpa using hq'), if_neg hlev0]
    simp
  · simp +decide only [calculate_position_size, if_neg hp']
    rw [hcancel, if_neg (by simpa using hq'), if_neg hlev0]
    simp

/-- C4 amended witness: the spec's worked example — amount 1000 USD at
price 50000 with leverage 10 gives quantity 1/50 (= 0.02) and margin 100
in both directions. -/
theorem C4_amended_witness :
    (0 : ℚ) < 50000 ∧ (1 : ℤ) ≤ 10 ∧ (0 : ℚ) < 1000
    ∧ calculate_position_size 1000 50000 10 "usd" =
        Except.ok ((1000 : ℚ) / 50000, (1000 : ℚ) / ((10 : ℤ) : ℚ))
    ∧ ((1000 : ℚ) / 50000 = 1 / 50 ∧ (1000 : ℚ) / ((10 : ℤ) : ℚ) = 100) :=
  ⟨by norm_num, by norm_num, by norm_num,
   (C4_amended 1000 50000 10 (by norm_num) (by norm_num) (by norm_num)).1,
   by norm_num, by push_cast; norm_num⟩

/-! ## C5 — risk-manager rules -/

/-- C5: with the max-notional setting absent or unparseable the outcome of
`check_order_risk` is independent of the order's notional (no notional
limit is imposed), and with both settings inactive the check passes; with
a parsed limit `L`, any context whose notional exceeds `L` raises the
risk-limit error whose message contains both formatted values — and it is
the **notional** message regardless of the leverage setting, showing the
max-notional rule is evaluated before the max-leverage rule. -/
theorem C5_risk_rules (env : RiskEnv) (ctx : OrderRiskContext) (L x : ℚ) :
    (getFloatSetting env "risk.max_notional_usd" = none →
      check_order_risk env ctx = check_order_risk env { ctx with notional_usd := x })
    ∧ (getFloatSetting env "risk.max_notional_usd" = none →
      getFloatSetting env "risk.max_leverage" = none →
      check_order_risk env ctx = (Except.ok (), []))
    ∧ (getFloatSetting env "risk.max_notional_usd" = some L → ctx.notional_usd > L →
      (check_order_risk env ctx).1 = Except.error
        ("Emir notional'ı risk limitini aşıyor: notional=" ++ formatQ2 ctx.notional_usd
          ++ " USDT, limit=" ++ formatQ2 L ++ " USDT")
      ∧ strContains
          ("Emir notional'ı risk limitini aşıyor: notional=" ++ formatQ2 ctx.notional_usd
            ++ " USDT, limit=" ++ formatQ2 L ++ " USDT") (formatQ2 ctx.notional_usd) = true
      ∧ strContains
          ("Emir notional'ı risk limitini aşıyor: notional=" ++ formatQ2 ctx.notional_usd
            ++ " USDT, limit=" ++ formatQ2 L ++ " USDT") (formatQ2 L) = true) := by
  refine ⟨fun hn => ?_, fun hn hl => ?_, fun hn hv => ⟨?_, ?_, ?_⟩⟩
  · simp only [check_order_risk, hn]
    cases h : getFloatSetting env "risk.max_leverage" <;>
      simp [check_order_risk.checkLeverageRule, h]
  · simp [check_order_risk, check_order_risk.checkLeverageRule, hn, hl]
  · simp [check_order_risk, hn, hv]
  · exact strContains_of_infix ⟨("Emir notional'ı risk limitini aşıyor: notional=").toList,
      (" USDT, limit=" ++ formatQ2 L ++ " USDT").toList, by simp [String.data_append]⟩
  · exact strContains_of_infix
      ⟨("Emir notional'ı risk limitini aşıyor: notional=" ++ formatQ2 ctx.notional_usd
        ++ " USDT, limit=").toList, (" USDT").toList, by simp [String.data_append]⟩

/-- C5 witness: with no settings every notional passes; with the limit set
to 1000, notional 1500 raises and the message contains "1500" and "1000". -/
theorem C5_risk_rules_witness :
    getFloatSetting envRiskNone "risk.max_notional_usd" = none
    ∧ getFloatSetting envRiskNone "risk.max_leverage" = none
    ∧ check_order_risk envRiskNone ctx1500 = (Except.ok (), [])
    ∧ getFloatSetting envRisk1000 "risk.max_notional_usd" = some 1000
    ∧ ctx1500.notional_usd > 1000
    ∧ (check_order_risk envRisk1000 ctx1500).1 = Except.error
        ("Emir notional'ı risk limitini aşıyor: notional=" ++ formatQ2 ctx1500.notional_usd
          ++ " USDT, limit=" ++ formatQ2 1000 ++ " USDT")
    ∧ strContains
        ("Emir notional'ı risk limitini aşıyor: notional=" ++ formatQ2 ctx1500.notional_usd
          ++ " USDT, limit=" ++ formatQ2 1000 ++ " USDT") "1500" = true
    ∧ strContains
        ("Emir notional'ı risk limitini aşıyor: notional=" ++ formatQ2 ctx1500.notional_usd
          ++ " USDT, limit=" ++ formatQ2 1000 ++ " USDT") "1000" = true :=
  ⟨rfl, rfl,
   (C5_risk_rules envRiskNone ctx1500 0 0).2.1 rfl rfl,
   rfl,
   by norm_num [ctx1500],
   ((C5_risk_rules envRisk1000 ctx1500 1000 0).2.2 rfl (by norm_num [ctx1500])).1,
   by decide,
   by decide⟩

/-! ## C6 — CommandValidator -/

/-- C6: `CommandValidator.validate` is valid exactly when the error list
is empty; for buy/sell commands an amount below the minimum yields the
error naming the minimum, an amount above the maximum yields the error
naming the maximum, an absent amount yields the "amount not specified"
error; and confidence below 0.5 appends the ambiguity error to whatever
other errors were collected (it neither replaces nor short-circuits
them). -/
theorem C6_validator (cmd : ParsedCommand) :
    ((validate (some cmd)).1 = true ↔ (validate (some cmd)).2 = [])
    ∧ (∀ a, (cmd.action = "buy" ∨ cmd.action = "sell") → cmd.amount = some a →
        a < MIN_AMOUNT →
        ("Miktar çok düşük: " ++ qRepr a ++ " USD (min: " ++ qRepr MIN_AMOUNT ++ ")")
          ∈ (validate (some cmd)).2)
    ∧ (∀ a, (cmd.action = "buy" ∨ cmd.action = "sell") → cmd.amount = some a →
        a > MAX_AMOUNT →
        ("Miktar çok yüksek: " ++ qRepr a ++ " USD (max: " ++ qRepr MAX_AMOUNT ++ ")")
          ∈ (validate (some cmd)).2)
    ∧ ((cmd.action = "buy" ∨ cmd.action = "sell") → cmd.amount = none →
        "Miktar belirtilmedi" ∈ (validate (some cmd)).2)
    ∧ (cmd.confidence < (0.5 : ℚ) →
        "Komut belirsiz, lütfen tekrar deneyin" ∈ (validate (some cmd)).2
        ∧ (validate (some cmd)).2 =
            (validate (some { cmd with confidence := 1 })).2
              ++ ["Komut belirsiz, lütfen tekrar deneyin"]) := by
  refine ⟨?_, fun a hact ha hlt => ?_, fun a hact ha hgt => ?_, fun hact ha => ?_, fun hconf => ⟨?_, ?_⟩⟩
  · simp [validate, List.length_eq_zero]
  · simp [validate, validateErrors, hact, ha, hlt]
  · have hnlt : ¬ a < MIN_AMOUNT := by
      rw [MIN_AMOUNT]; rw [MAX_AMOUNT] at hgt; linarith
    simp [validate, validateErrors, hact, ha, hgt, hnlt]
  · simp [validate, validateErrors, hact, ha]
  · simp [validate, validateErrors, hconf]
  · have h1 : ¬ ((1 : ℚ) < 0.5) := by norm_num
    simp [validate, validateErrors, hconf, h1]

/-- C6 witness: a buy command with amount 0 and confidence 0 collects both
the too-low-amount error and the ambiguity error. -/
theorem C6_validator_witness :
    ((cmdLow.action = "buy" ∨ cmdLow.action = "sell") ∧ cmdLow.amount = some 0
      ∧ (0 : ℚ) < MIN_AMOUNT ∧ cmdLow.confidence < (0.5 : ℚ))
    ∧ ("Miktar çok düşük: " ++ qRepr 0 ++ " USD (min: " ++ qRepr MIN_AMOUNT ++ ")")
        ∈ (validate (some cmdLow)).2
    ∧ "Komut belirsiz, lütfen tekrar deneyin" ∈ (validate (some cmdLow)).2 :=
  ⟨⟨Or.inl rfl, rfl, by norm_num [MIN_AMOUNT], by norm_num [cmdLow]⟩,
   (C6_validator cmdLow).2.1 0 (Or.inl rfl) rfl (by norm_num [MIN_AMOUNT]),
   ((C6_validator cmdLow).2.2.2.2 (by norm_num [cmdLow])).1⟩

/-! ## C7 — parser confidence scoring -/

/-- C7 counterexample: in `parse "al btc 0 dolar"` both a known alias
(`btc`) and an amount (0) are found, yet the returned confidence is 0.5,
not 1.0 — the source tests `if not cmd.amount`, and `0.0` is falsy in
Python, so the missing-amount penalty fires even for a found zero
amount. -/
theorem C7_counterexample :
    extract_symbol (normalize_text "al btc 0 dolar") = some "BTCUSDT"
    ∧ extract_amount (normalize_text "al btc 0 dolar") = some 0
    ∧ (parse "BTCUSDT" "al btc 0 dolar").map ParsedCommand.confidence = some (1 / 2)
    ∧ ((1 : ℚ) / 2 ≠ 1) := by
  refine ⟨by decide, by decide, ?_, by norm_num⟩
  rw [show ((1 : ℚ) / 2) = 1 * 0.5 from by norm_num]
  rfl

/-- C7 (amended): for every recognized buy/sell utterance the confidence
is exactly (symbol found ? 1 : 0.8) × (amount found **and nonzero** ? 1 :
0.5) — so it is 1.0, 0.8, 0.5 or 0.4, the penalties compound
multiplicatively, and it always lies in (0, 1].  A found amount of zero is
penalized like a missing one (Python falsiness). -/
theorem C7_amended (ds t : String) (cmd : ParsedCommand)
    (h : parse ds t = some cmd) (hact : cmd.action = "buy" ∨ cmd.action = "sell") :
    cmd.confidence =
      (if (extract_symbol (normalize_text t)).isSome then (1 : ℚ) else 0.8)
        * (if (extract_amount (normalize_text t)).getD 0 ≠ 0 then (1 : ℚ) else 0.5)
    ∧ 0 < cmd.confidence ∧ cmd.confidence ≤ 1 := by
  simp only [parse] at h
  split at h
  · cases h
  split at h
  · cases h
  rename_i action hda
  split at h
  · injection h with h
    subst h
    rcases hsym : extract_symbol (normalize_text t) with _ | s <;>
        simp only [hsym] <;>
        rcases hamt : extract_amount (normalize_text t) with _ | a <;>
        simp only [hamt]
    · exact ⟨by norm_num, by norm_num, by norm_num⟩
    · by_cases haz : a = 0
      · subst haz
        simp only [if_pos rfl]
        exact ⟨by norm_num, by norm_num, by norm_num⟩
      · simp only [if_neg haz, Option.getD_some, ne_eq, haz, not_false_iff]
        exact ⟨by norm_num, by norm_num, by norm_num⟩
    · exact ⟨by norm_num, by norm_num, by norm_num⟩
    · by_cases haz : a = 0
      · subst haz
        simp only [if_pos rfl]
        exact ⟨by norm_num, by norm_num, by norm_num⟩
      · simp only [if_neg haz, Option.getD_some, ne_eq, haz, not_false_iff]
        exact ⟨by norm_num, by norm_num, by norm_num⟩
  · rename_i hbs
    split at h <;> injection h with h <;> subst h <;> exact absurd hact hbs

/-- C7 amended witness: the spec's example utterance has both fields and
confidence exactly 1. -/
theorem C7_amended_witness :
    parse "BTCUSDT" "al btc 100 dolar" = some
      { action := "buy", side := some "buy", symbol := some "BTCUSDT",
        amount := some 100, raw_text := "al btc 100 dolar", confidence := 1 }
    ∧ (({ action := "buy", side := some "buy", symbol := some "BTCUSDT",
          amount := some 100, raw_text := "al btc 100 dolar", confidence := 1 }
            : ParsedCommand).confidence =
        (if (extract_symbol (normalize_text "al btc 100 dolar")).isSome then (1 : ℚ) else 0.8)
          * (if (extract_amount (normalize_text "al btc 100 dolar")).getD 0 ≠ 0
              then (1 : ℚ) else 0.5)
        ∧ (0 : ℚ) <
            ({ action := "buy", side := some "buy", symbol := some "BTCUSDT",
               amount := some 100, raw_text := "al btc 100 dolar", confidence := 1 }
                 : ParsedCommand).confidence
        ∧ ({ action := "buy", side := some "buy", symbol := some "BTCUSDT",
             amount := some 100, raw_text := "al btc 100 dolar", confidence := 1 }
               : ParsedCommand).confidence ≤ 1) :=
  ⟨by decide,
   C7_amended "BTCUSDT" "al btc 100 dolar" _ (by decide) (Or.inl rfl)⟩

/-! ## C8 — normalization and Turkish letters -/

theorem toList_mk (l : List Char) : (String.mk l).toList = l := rfl

theorem count_map_eq (f : Char → Char) (c : Char) (h : ∀ x, f x = c ↔ x = c)
    (l : List Char) : (l.map f).count c = l.count c := by
  induction l with
  | nil => rfl
  | cons x xs ih => simp [List.count_cons, ih, h x]

theorem count_map_zero (f : Char → Char) (c : Char) (h : ∀ x, f x ≠ c)
    (l : List Char) : (l.map f).count c = 0 := by
  induction l with
  | nil => rfl
  | cons x xs ih => simp [List.count_cons, ih, h x]

theorem count_map_replace (o r c : Char) (h1 : c ≠ o) (h2 : c ≠ r) (l : List Char) :
    (l.map (fun x => if x = o then r else x)).count c = l.count c := by
  apply count_map_eq
  intro x
  by_cases hx : x = o
  · subst hx
    simp [Ne.symm h2, Ne.symm h1]
  · simp [hx]

theorem count_dropWhile (p : Char → Bool) (c : Char) (h : p c = false) (l : List Char) :
    (l.dropWhile p).count c = l.count c := by
  induction l with
  | nil => rfl
  | cons x xs ih =>
    by_cases hx : p x = true
    · have hxc : x ≠ c := by
        intro he
        subst he
        rw [hx] at h
        cases h
      rw [List.dropWhile_cons_of_pos hx, ih, List.count_cons]
      simp [hxc]
    · rw [List.dropWhile_cons_of_neg hx]

theorem count_pyStrip (c : Char) (h : isPySpace c = false) (s : String) :
    (pyStrip s).toList.count c = s.toList.count c := by
  unfold pyStrip
  rw [toList_mk, List.count_reverse, count_dropWhile _ _ h, List.count_reverse,
    count_dropWhile _ _ h]

theorem splitChars_ne_nil (p : Char → Bool) (l : List Char) : splitChars p l ≠ [] := by
  induction l with
  | nil => simp [splitChars]
  | cons x xs ih =>
    unfold splitChars at *
    by_cases hx : p x = true
    · simp [List.foldr, hx]
    · simp only [List.foldr, hx, Bool.false_eq_true, if_false]
      cases xs.foldr _ [[]] with
      | nil => simp
      | cons g rest => simp

theorem join_splitChars (p : Char → Bool) (l : List Char) :
    (splitChars p l).flatten = l.filter (fun x => !p x) := by
  induction l with
  | nil => rfl
  | cons x xs ih =>
    unfold splitChars at *
    by_cases hx : p x = true
    · simp [List.foldr, hx, ih]
    · simp only [List.foldr, hx, Bool.false_eq_true, if_false]
      rcases hS : xs.foldr _ [[]] with _ | ⟨g, rest⟩
      · exact absurd hS (by rw [← hS]; exact fun hc => splitChars_ne_nil p xs (by
          unfold splitChars; rw [hS] at hc; exact hc))
      · rw [hS] at ih
        simp only [List.flatten_cons] at ih ⊢
        simp [List.filter_cons, hx, ← ih]

theorem join_filter_ne_nil (L : List (List Char)) :
    (L.filter (fun g => g ≠ [])).flatten = L.flatten := by
  induction L with
  | nil => rfl
  | cons g rest ih =>
    rw [List.filter_cons]
    by_cases hg : g = []
    · subst hg
      simpa using ih
    · simpa [hg] using ih

theorem count_join_intersperse (c : Char) (h : ¬ c = ' ') (L : List (List Char)) :
    ((L.intersperse [ ' ' ]).flatten).count c = (L.flatten).count c := by
  induction L with
  | nil => rfl
  | cons g rest ih =>
    cases rest with
    | nil => rfl
    | cons g2 r2 =>
      rw [List.intersperse_cons_cons]
      simp only [List.flatten_cons, List.count_append] at ih ⊢
      rw [ih]
      have hsep : (([ ' ' ] : List Char)).count c = 0 := by
        simp [List.count_singleton]
        intro he
        exact h he.symm
      omega

theorem count_collapseWS (c : Char) (h : isPySpace c = false) (s : String) :
    (collapseWS s).toList.count c = s.toList.count c := by
  have hsp : ¬ c = ' ' := by
    intro he
    rw [he] at h
    cases h
  unfold collapseWS List.intercalate
  rw [toList_mk, count_join_intersperse c hsp, join_filter_ne_nil, join_splitChars]
  rw [List.count_filter]
  · simp [h]

theorem normalize_no_dotless (t : String) : (normalize_text t).toList.count 'ı' = 0 := by
  unfold normalize_text
  simp only [NORMALIZE_REPLACEMENTS, List.foldl_cons, List.foldl_nil]
  rw [count_collapseWS 'ı' (by decide)]
  simp only [toList_mk]
  rw [count_map_replace '”' '"' 'ı' (by decide) (by decide),
    count_map_replace '“' '"' 'ı' (by decide) (by decide),
    count_map_replace '’' '\'' 'ı' (by decide) (by decide),
    count_map_replace '‘' '\'' 'ı' (by decide) (by decide)]
  exact count_map_zero _ _ (fun x => by by_cases hx : x = 'ı' <;> simp [hx]) _

theorem normalize_count_eq (t : String) (c : Char)
    (h1 : isPySpace c = false)
    (h2 : c ≠ 'ı') (h3 : c ≠ 'i') (h4 : c ≠ '\'') (h5 : c ≠ '"')
    (h6 : c ≠ '‘') (h7 : c ≠ '’') (h8 : c ≠ '“') (h9 : c ≠ '”') :
    (normalize_text t).toList.count c = (pyLower t).toList.count c := by
  unfold normalize_text
  simp only [NORMALIZE_REPLACEMENTS, List.foldl_cons, List.foldl_nil]
  rw [count_collapseWS c h1]
  simp only [toList_mk]
  rw [count_map_replace '”' '"' c h9 h5,
    count_map_replace '“' '"' c h8 h5,
    count_map_replace '’' '\'' c h7 h4,
    count_map_replace '‘' '\'' c h6 h4,
    count_map_replace 'ı' 'i' c h2 h3]
  exact count_pyStrip c h1 _

/-- C8 counterexample: `_normalize_text` maps the dotless ı to ASCII i —
`normalize_text "ı" = "i"` — refuting the claim that no canonical Turkish
letter is mapped to an ASCII equivalent. -/
theorem C8_counterexample :
    normalize_text "ı" = "i" ∧ ("ı" : String) ≠ "i" := ⟨by decide, by decide⟩

/-- C8 (amended): normalization leaves the Turkish letters ğ, ü, ş, ö, ç
unchanged (their occurrence counts survive the replacement table and the
whitespace collapse), but folds every dotless ı to ASCII i, so no ı
remains in any normalized text. -/
theorem C8_amended (t : String) (c : Char)
    (hc : c = 'ğ' ∨ c = 'ü' ∨ c = 'ş' ∨ c = 'ö' ∨ c = 'ç') :
    (normalize_text t).toList.count 'ı' = 0
    ∧ (normalize_text t).toList.count c = (pyLower t).toList.count c := by
  refine ⟨normalize_no_dotless t, ?_⟩
  rcases hc with rfl | rfl | rfl | rfl | rfl <;>
    exact normalize_count_eq t _ (by decide) (by decide) (by decide) (by decide)
      (by decide) (by decide) (by decide) (by decide) (by decide)

/-- C8 amended witness: counts of ğ survive normalization of a mixed
string while the ı is gone. -/
theorem C8_amended_witness :
    (('ğ' : Char) = 'ğ' ∨ ('ğ' : Char) = 'ü' ∨ ('ğ' : Char) = 'ş'
      ∨ ('ğ' : Char) = 'ö' ∨ ('ğ' : Char) = 'ç')
    ∧ (normalize_text "ğı kapat").toList.count 'ı' = 0
    ∧ (normalize_text "ğı kapat").toList.count 'ğ' = (pyLower "ğı kapat").toList.count 'ğ' :=
  ⟨Or.inl rfl, (C8_amended "ğı kapat" 'ğ' (Or.inl rfl)).1,
   (C8_amended "ğı kapat" 'ğ' (Or.inl rfl)).2⟩

/-! ## C9 — active-mode timeout of the listening state machine -/

theorem activeStep_timeout (removeWake : String → String) (st : ListenerSettings)
    (c : ActiveChunk) (hel : st.active_mode_duration ≤ c.elapsed) :
    activeStep removeWake st c = (ListenerMode.passive,
      [ListenerEvent.modeChanged .passive]
        ++ (if st.tts_present then [ListenerEvent.spokeMessage "timeout"] else [])) := by
  unfold activeStep
  rw [if_pos hel]

theorem activeStep_quiet (removeWake : String → String) (st : ListenerSettings)
    (c : ActiveChunk) (hel : ¬ st.active_mode_duration ≤ c.elapsed)
    (hq : ∀ level t, c.outcome = ChunkOutcome.audio level (some t) →
        pyStrip t = "" ∨ removeWake (pyStrip t) = "") :
    (activeStep removeWake st c).1 = ListenerMode.active
    ∧ (∀ s, ListenerEvent.commandReceived s ∉ (activeStep removeWake st c).2)
    ∧ (∀ m, ListenerEvent.errorRaised m ∉ (activeStep removeWake st c).2) := by
  unfold activeStep
  rw [if_neg hel]
  rcases hco : c.outcome with _ | ⟨level, tr⟩ | level
  · simp
  · by_cases hlev : level < listenThreshold st
    · simp [hlev]
    · rcases tr with _ | t0
      · simp [hlev]
      · rcases hq level t0 hco with hs | hr
        · simp [hlev, hs]
        · by_cases hstrip : pyStrip t0 = ""
          · simp [hlev, hstrip]
          · simp [hlev, hstrip, hr]
  · by_cases hlev : level < listenThreshold st <;> simp [hlev]

/-- C9: if every chunk observed inside the active window (before the
configured duration elapses) produces no non-empty post-strip transcript,
and the elapsed time eventually reaches the duration, then the active loop
returns to `passive`, emits no command-ready event for that window, and
raises no error event. -/
theorem C9_active_timeout (removeWake : String → String) (st : ListenerSettings)
    (chunks : List ActiveChunk)
    (hquiet : ∀ c ∈ chunks, c.elapsed < st.active_mode_duration →
      ∀ level t, c.outcome = ChunkOutcome.audio level (some t) →
        pyStrip t = "" ∨ removeWake (pyStrip t) = "")
    (htimeout : ∃ c ∈ chunks, st.active_mode_duration ≤ c.elapsed) :
    (runActive removeWake st chunks).1 = ListenerMode.passive
    ∧ (∀ s, ListenerEvent.commandReceived s ∉ (runActive removeWake st chunks).2)
    ∧ (∀ m, ListenerEvent.errorRaised m ∉ (runActive removeWake st chunks).2) := by
  induction chunks with
  | nil =>
    rcases htimeout with ⟨c, hc, _⟩
    cases hc
  | cons c rest ih =>
    by_cases hel : st.active_mode_duration ≤ c.elapsed
    · have hstep := activeStep_timeout removeWake st c hel
      unfold runActive
      rw [hstep]
      refine ⟨rfl, fun s => ?_, fun m => ?_⟩ <;>
        by_cases htts : st.tts_present <;> simp [htts]
    · have hq := hquiet c (List.mem_cons_self c rest) (lt_of_not_le hel)
      have hstep := activeStep_quiet removeWake st c hel hq
      have htimeout' : ∃ c2 ∈ rest, st.active_mode_duration ≤ c2.elapsed := by
        rcases htimeout with ⟨c2, hc2, hle⟩
        rcases List.mem_cons.mp hc2 with rfl | hmem
        · exact absurd hle hel
        · exact ⟨c2, hmem, hle⟩
      have hquiet' : ∀ c2 ∈ rest, c2.elapsed < st.active_mode_duration →
          ∀ level t, c2.outcome = ChunkOutcome.audio level (some t) →
            pyStrip t = "" ∨ removeWake (pyStrip t) = "" :=
        fun c2 hm => hquiet c2 (List.mem_cons_of_mem c hm)
      have ihr := ih hquiet' htimeout'
      unfold runActive
      rcases hsv : activeStep removeWake st c with ⟨m, evs⟩
      rw [hsv] at hstep
      have hm : m = ListenerMode.active := hstep.1
      subst hm
      simp only
      refine ⟨ihr.1, fun s => ?_, fun m => ?_⟩ <;>
        rw [List.mem_append] <;>
        rintro (hin | hin)
      · exact hstep.2.1 s hin
      · exact ihr.2.1 s hin
      · exact hstep.2.2 m hin
      · exact ihr.2.2 m hin

/-- C9 witness: a scripted window with one wake-word-only chunk followed by
a chunk past the 15-second default duration ends passive with no command
and no error events. -/
theorem C9_active_timeout_witness :
    (∀ c ∈ chunksTimeout, c.elapsed < stDefault.active_mode_duration →
      ∀ level t, c.outcome = ChunkOutcome.audio level (some t) →
        pyStrip t = "" ∨ (fun _ : String => "") (pyStrip t) = "")
    ∧ (∃ c ∈ chunksTimeout, stDefault.active_mode_duration ≤ c.elapsed)
    ∧ (runActive (fun _ : String => "") stDefault chunksTimeout).1 = ListenerMode.passive
    ∧ (∀ s, ListenerEvent.commandReceived s
        ∉ (runActive (fun _ : String => "") stDefault chunksTimeout).2) := by
  have hq : ∀ c ∈ chunksTimeout, c.elapsed < stDefault.active_mode_duration →
      ∀ level t, c.outcome = ChunkOutcome.audio level (some t) →
        pyStrip t = "" ∨ (fun _ : String => "") (pyStrip t) = "" :=
    fun _ _ _ _ _ _ => Or.inr rfl
  have ht : ∃ c ∈ chunksTimeout, stDefault.active_mode_duration ≤ c.elapsed :=
    ⟨{ elapsed := 16, outcome := .failed }, by decide, by decide⟩
  exact ⟨hq, ht,
    (C9_active_timeout (fun _ => "") stDefault chunksTimeout hq ht).1,
    (C9_active_timeout (fun _ => "") stDefault chunksTimeout hq ht).2.1⟩

/-! ## C10 — balance vocabulary parses as a buy order -/

/-- C10: because action keywords are substring-matched with buy-keywords
checked before balance-keywords and "al" among the buy keywords,
`parse "balance"` — an utterance consisting only of balance vocabulary —
returns a buy command (side buy, the default symbol, no amount,
confidence 0.4), not a balance command. -/
theorem C10_balance_parses_as_buy :
    "al" ∈ BUY_KEYWORDS ∧ "balance" ∈ BALANCE_KEYWORDS
    ∧ parse "BTCUSDT" "balance" = some
        { action := "buy", side := some "buy", symbol := some "BTCUSDT",
          amount := none, raw_text := "balance", confidence := 0.4 } := by
  refine ⟨by decide, by decide, ?_⟩
  rw [show (0.4 : ℚ) = 0.8 * 0.5 from by norm_num]
  rfl

end VoiceTrader
